import Mathlib

/-!
Shallow embedding of the statistical core of `src/nltools/data.py`
(class `Brain_Data`): the one-sample t-test with optional thresholding,
`append`, `similarity`, vectorized OLS `regress`, and the cross-validation
loop of `predict`.  Machine floats are modelled by exact rationals; the
irrational square root and the Student-t CDF are abstract parameters;
Python exceptions are modelled by `Except PyErr`.
-/

namespace Nltools

/-- Python exception classes raised (or raisable) by the modelled code. -/
inductive PyErr
  | valueError
  | keyError
  | indexError
  | unboundLocalError
  | nameError
  deriving DecidableEq, Repr

/-! ### Shared list helpers (numpy fancy indexing / assignment) -/

/-- numpy fancy-index assignment `base[idxs] = vals`: set `base[idxs[i]] := vals[i]`. -/
def writeAt (base : List ℚ) (idxs : List ℕ) (vals : List ℚ) : List ℚ :=
  (idxs.zip vals).foldl (fun acc iv => acc.set iv.1 iv.2) base

/-- numpy fancy row indexing `X[idxs]`: the rows of `X` at `idxs`, in order. -/
def rowsAt (X : List (List ℚ)) (idxs : List ℕ) : List (List ℚ) :=
  idxs.map (fun i => X.getD i [])

/-- numpy fancy indexing `y[idxs]` on a vector. -/
def valsAt (y : List ℚ) (idxs : List ℕ) : List ℚ :=
  idxs.map (fun i => y.getD i 0)

/-- Column `j` of a row-major matrix. -/
def column (data : List (List ℚ)) (j : ℕ) : List ℚ :=
  data.map (fun r => r.getD j 0)

/-- Number of voxels (columns) of a row-major observations-by-voxels matrix. -/
def voxelCount (data : List (List ℚ)) : ℕ :=
  (data.headD []).length

/-- Arithmetic mean of a list of rationals (0 on the empty list, as 0/0 = 0 in ℚ). -/
def qmean (xs : List ℚ) : ℚ :=
  xs.sum / (xs.length : ℚ)

/-- Sum of squared deviations from the mean.  `ssdev xs / xs.length` is the
population variance (numpy `std` squared); a row has zero variance iff its
`ssdev` is zero. -/
def ssdev (xs : List ℚ) : ℚ :=
  (xs.map (fun x => (x - qmean xs) ^ 2)).sum

/-! ### One-sample t-test (`Brain_Data.ttest`, lines 252-282) -/

/-- scipy.stats.ttest_1samp with popmean 0 along axis 0, as called at line 268:
per column `j`, `t_j = mean_j / sqrt(sampleVar_j / n)` (variance with ddof 1)
and the two-sided p-value `p_j = 2 * (1 - cdf |t_j| (n - 1))`, where `sqrt`
and the Student-t CDF `cdf` are abstract parameters standing for the
floating-point routines of scipy. -/
def ttest1samp (sqrt : ℚ → ℚ) (cdf : ℚ → ℤ → ℚ) (data : List (List ℚ)) :
    List ℚ × List ℚ :=
  let n : ℕ := data.length
  let tOf : ℕ → ℚ := fun j =>
    let c := column data j
    qmean c / sqrt (ssdev c / ((n : ℚ) - 1) / (n : ℚ))
  let ts := (List.range (voxelCount data)).map tOf
  (ts, ts.map (fun tv => 2 * (1 - cdf |tv| ((n : ℤ) - 1))))

/-- The `threshold_dict` argument of `Brain_Data.ttest`: either a Python dict
with rational values, or a value that is not a dict at all. -/
inductive ThresholdArg
  | dict (entries : List (String × ℚ))
  | notDict
  deriving DecidableEq

/-- Result of `Brain_Data.ttest`: a t map in which `none` models numpy NaN
(the explicit missing marker), and a p map. -/
structure TtestOut where
  t : List (Option ℚ)
  p : List ℚ
  deriving DecidableEq, Repr

/-- Line 274, `t.data[np.where(p.data > cutoff)] = np.nan`: every entry whose
p-value strictly exceeds the cutoff becomes the missing marker, every other
entry keeps its t-value; the shape is preserved. -/
def maskAbove (c : ℚ) (tv pv : List ℚ) : List (Option ℚ) :=
  (tv.zip pv).map (fun x => if x.2 > c then none else some x.1)

/-- Brain_Data.ttest (lines 252-282): one-sample two-sided t-test per voxel,
then optional thresholding.  A dict containing key `unc` applies uncorrected
thresholding; otherwise, if it contains key `fdr` the source executes `pass`
(line 276) and the unthresholded result is returned; a dict with neither key
falls through both branches, also returning the unthresholded result; a
non-dict raises ValueError (line 278). -/
def ttest (sqrt : ℚ → ℚ) (cdf : ℚ → ℤ → ℚ) (data : List (List ℚ))
    (threshold : Option ThresholdArg) : Except PyErr TtestOut :=
  let tp := ttest1samp sqrt cdf data
  match threshold with
  | none => .ok ⟨tp.1.map some, tp.2⟩
  | some (.dict es) =>
      match es.lookup "unc" with
      | some c => .ok ⟨maskAbove c tp.1 tp.2, tp.2⟩
      | none =>
          if (es.lookup "fdr").isSome then
            .ok ⟨tp.1.map some, tp.2⟩
          else
            .ok ⟨tp.1.map some, tp.2⟩
  | some .notDict => .error .valueError

/-! ### `Brain_Data.append` (lines 284-314) and `isempty` (lines 331-350) -/

/-- A numpy array that is either 1-D or 2-D (row-major), the two shapes
`Brain_Data.data` takes in the source. -/
inductive NDArr
  | one (v : List ℚ)
  | two (rows : List (List ℚ))
  deriving DecidableEq, Repr

/-- numpy `.shape` as a list: `[len]` for 1-D, `[rows, cols]` for 2-D. -/
def NDArr.shape : NDArr → List ℕ
  | .one v => [v.length]
  | .two rows => [rows.length, (rows.headD []).length]

/-- numpy `.size`: the product of the shape entries. -/
def NDArr.size : NDArr → ℕ
  | .one v => v.length
  | .two rows => rows.length * (rows.headD []).length

/-- numpy `np.vstack([a, b])`: stack the two arrays as rows, a 1-D array
counting as a single row. -/
def NDArr.vstack : NDArr → NDArr → NDArr
  | .one v, .one w => .two [v, w]
  | .one v, .two ss => .two ([v] ++ ss)
  | .two rs, .one w => .two (rs ++ [w])
  | .two rs, .two ss => .two (rs ++ ss)

/-- The statistical payload of a `Brain_Data` instance: the voxel data plus
the label vector `Y` and design matrix `X` (mask and anatomical metadata do
not enter any modelled computation). -/
structure BrainDataM where
  data : NDArr
  Y : List ℚ
  X : List (List ℚ)
  deriving DecidableEq, Repr

/-- Brain_Data.isempty (lines 331-350): data is an ndarray in this model, so
the instance is empty iff `data.size` is zero. -/
def isempty (b : BrainDataM) : Bool :=
  b.data.size = 0

/-- Python sequence indexing `l[i]`: IndexError when out of range. -/
def pyIdx (l : List ℕ) (i : ℕ) : Except PyErr ℕ :=
  match l.get? i with
  | some x => .ok x
  | none => .error .indexError

/-- Python `1 & m`: the low bit of `m`, i.e. `m % 2`. -/
def pyBitAnd1 (m : ℕ) : ℕ := m % 2

/-- Brain_Data.append (lines 284-314).  The Python branch conditions use the
bitwise operator `&`, which binds tighter than comparisons, so each condition
is a chained comparison: `len(self.shape())==1 & len(data.shape())==1` parses
as `len(self.shape()) == (1 & len(data.shape())) == 1`, and similarly for the
other two; with `L1 = len(self.shape())`, `L2 = len(data.shape())` and
`m = 1 & L2` the chain conditions are `L1 = m ∧ m = 1`, `L1 = m ∧ m > 1`
(never true) and `L1 > m ∧ m = 1`.  When `self` is 1-D and `data` is 2-D all
three fail and the final branch evaluates `self.shape()[1]`, raising
IndexError. -/
def append (self other : BrainDataM) : Except PyErr BrainDataM := do
  if isempty self then
    return { self with data := other.data }
  let L1 := self.data.shape.length
  let L2 := other.data.shape.length
  if L1 = pyBitAnd1 L2 ∧ pyBitAnd1 L2 = 1 then
    let a ← pyIdx self.data.shape 0
    let b ← pyIdx other.data.shape 0
    if a ≠ b then throw .valueError
  else if L1 = pyBitAnd1 L2 ∧ 1 < pyBitAnd1 L2 then
    let a ← pyIdx self.data.shape 0
    let b ← pyIdx other.data.shape 1
    if a ≠ b then throw .valueError
  else if pyBitAnd1 L2 < L1 ∧ pyBitAnd1 L2 = 1 then
    let a ← pyIdx self.data.shape 1
    let b ← pyIdx other.data.shape 0
    if a ≠ b then throw .valueError
  else
    let a ← pyIdx self.data.shape 1
    let b ← pyIdx other.data.shape 1
    if a ≠ b then throw .valueError
  return { self with data := self.data.vstack other.data }

/-! ### `Brain_Data.similarity` (lines 352-384) -/

/-- Dot product of two vectors, `np.dot` on equal-length 1-D arrays. -/
def dotProd (x y : List ℚ) : ℚ :=
  ((x.zip y).map (fun p => p.1 * p.2)).sum

/-- Brain_Data.similarity (lines 352-384) for a 2-D instance against a
single-observation image.  A voxel-count mismatch only prints a warning
(line 372) and does not alter the result.  `dot_product` maps `np.dot` over
the rows.  `correlation` loops `for w in xrange(rows)` appending
`pearson(self.data[w,:], image.data)` — but the name `pearson` is neither
imported (lines 16-31) nor defined anywhere in the module, so the first loop
iteration raises NameError whenever the data has at least one row; with zero
rows the loop body never runs and the empty vector is returned.  Any other
method leaves `pexp` unbound, so the final `return pexp` raises
UnboundLocalError. -/
def similarity (data : List (List ℚ)) (image : List ℚ)
    (method : String) : Except PyErr (List ℚ) :=
  if method = "dot_product" then
    .ok (data.map (fun r => dotProd r image))
  else if method = "correlation" then
    if data.length = 0 then .ok []
    else .error .nameError
  else
    .error .unboundLocalError

/-! ### Cross-validation loop of `Brain_Data.predict` (lines 400-527)

The estimator is the pluggable black box of the spec: a state type with
`fit`, `predict`, and (for classifiers) `decision_function`/`predict_proba`.
Crucially, at line 461 the source sets `predictor_cv = predictor_settings
['predictor']`, the very same object that was already fit on the full sample
at line 436, and reuses it for every fold; so the estimator state threads
from the full-sample fit through all folds, and `fit` is modelled as a
function of the previous state as well as of the training data. -/

/-- An estimator adapter for the regression path: mutable-object semantics,
so `fit` receives the current state and returns the new one. -/
structure Estimator (S : Type) where
  init : S
  fit : S → List (List ℚ) → List ℚ → S
  pred : S → List (List ℚ) → List ℚ

/-- The fold loop of lines 474-476, exposing per-fold results: for each
`(train, test)` pair the estimator (threaded state `s`) is refit on the rows
at `train`, and the pair of the fitted state and the held-out predictions on
the rows at `test` is recorded. -/
def cvTrace {S : Type} (E : Estimator S) (X : List (List ℚ)) (Y : List ℚ) :
    List (List ℕ × List ℕ) → S → List (S × List ℚ)
  | [], _ => []
  | f :: fs, s =>
      let s2 := E.fit s (rowsAt X f.1) (valsAt Y f.1)
      (s2, E.pred s2 (rowsAt X f.2)) :: cvTrace E X Y fs s2

/-- Brain_Data.predict, regression path (lines 434-437 and 458-476): the
full-sample fit produces `yfit_all`; `yfit_xval` starts as a copy of
`yfit_all` (line 462) and each fold writes its held-out predictions at its
test positions.  The cross-validation loop starts from the state left by the
full-sample fit, because `predictor_cv` is the same object. -/
def predictRegr {S : Type} (E : Estimator S) (X : List (List ℚ)) (Y : List ℚ)
    (folds : List (List ℕ × List ℕ)) : List ℚ × List ℚ :=
  let s1 := E.fit E.init X Y
  let yfitAll := E.pred s1 X
  let trace := cvTrace E X Y folds s1
  let yfitXval := (folds.zip trace).foldl (fun acc ft => writeAt acc ft.1.2 ft.2.2) yfitAll
  (yfitAll, yfitXval)

/-- An estimator adapter for the classification path, additionally exposing
`decision_function`, `predict_proba` and the svm `probability` flag. -/
structure ClassifEstimator (S : Type) where
  init : S
  fit : S → List (List ℚ) → List ℚ → S
  pred : S → List (List ℚ) → List ℚ
  decisionFun : S → List (List ℚ) → List ℚ
  predictProba : S → List (List ℚ) → List ℚ
  probability : Bool

/-- The algorithms treated as margin-based (decision-boundary) classifiers
at lines 439, 467 and 478: `algorithm in ['svm','ridgeClassifier',
'ridgeClassifierCV']` is negated in the source tests. -/
def marginAlgs : List String := ["svm", "ridgeClassifier", "ridgeClassifierCV"]

/-- The mutable pieces of the `output` dictionary touched by the
classification cross-validation loop; a field that is `none` models a key
absent from the dict, so writing through it raises KeyError. -/
structure CvClassifState (S : Type) where
  s : S
  yfitXval : List ℚ
  probXval : Option (List ℚ)
  distXval : Option (List ℚ)
  deriving Repr

/-- Python `output[key][test] = vals` on an optional field: KeyError when the
key is absent, otherwise the fancy-index assignment. -/
def writeOpt (field : Option (List ℚ)) (idxs : List ℕ) (vals : List ℚ) :
    Except PyErr (List ℚ) :=
  match field with
  | none => .error .keyError
  | some v => .ok (writeAt v idxs vals)

/-- The pre-loop initialization of lines 466-472 for classification: a
non-margin algorithm initializes `output['prob_xval']` to zeros; a margin
algorithm assigns the zeros vector for the decision distances to a LOCAL
variable `dist_from_hyperplane_xval` (line 470) — not to
`output['dist_from_hyperplane_xval']` — so the dict key stays absent
(`distXval = none`); svm with probability enabled also initializes
`output['prob_xval']`. -/
def cvClassifInit {S : Type} (E : ClassifEstimator S) (alg : String) (nY : ℕ)
    (s1 : S) (yfitAll : List ℚ) : CvClassifState S :=
  if ¬ (alg ∈ marginAlgs) then
    ⟨s1, yfitAll, some (List.replicate nY 0), none⟩
  else if alg = "svm" ∧ E.probability then
    ⟨s1, yfitAll, some (List.replicate nY 0), none⟩
  else
    ⟨s1, yfitAll, none, none⟩

/-- One fold of the classification cross-validation loop (lines 474-483):
fit on the train rows, write held-out predictions, then for a non-margin
algorithm write `predict_proba` output into `output['prob_xval']`, and for a
margin algorithm write `decision_function` output into
`output['dist_from_hyperplane_xval']` (KeyError: that key was never created),
with svm-and-probability additionally writing `output['prob_xval']`. -/
def cvClassifStep {S : Type} (E : ClassifEstimator S) (alg : String)
    (X : List (List ℚ)) (Y : List ℚ) (st : CvClassifState S)
    (fold : List ℕ × List ℕ) : Except PyErr (CvClassifState S) := do
  let s2 := E.fit st.s (rowsAt X fold.1) (valsAt Y fold.1)
  let yfit2 := writeAt st.yfitXval fold.2 (E.pred s2 (rowsAt X fold.2))
  if ¬ (alg ∈ marginAlgs) then
    let pr ← writeOpt st.probXval fold.2 (E.predictProba s2 (rowsAt X fold.2))
    return { st with s := s2, yfitXval := yfit2, probXval := some pr }
  else
    let d ← writeOpt st.distXval fold.2 (E.decisionFun s2 (rowsAt X fold.2))
    if alg = "svm" ∧ E.probability then
      let pr ← writeOpt st.probXval fold.2 (E.predictProba s2 (rowsAt X fold.2))
      return { st with s := s2, yfitXval := yfit2, distXval := some d,
                       probXval := some pr }
    else
      return { st with s := s2, yfitXval := yfit2, distXval := some d }

/-- Brain_Data.predict, classification path with cross-validation: full-
sample fit, pre-loop initialization, then the fold loop, failing on the
first raised exception as the Python call does. -/
def cvClassif {S : Type} (E : ClassifEstimator S) (alg : String)
    (X : List (List ℚ)) (Y : List ℚ) (folds : List (List ℕ × List ℕ)) :
    Except PyErr (CvClassifState S) :=
  let s1 := E.fit E.init X Y
  let yfitAll := E.pred s1 X
  folds.foldlM (cvClassifStep E alg X Y) (cvClassifInit E alg Y.length s1 yfitAll)

/-! ### `Brain_Data.regress` (lines 209-250)

The design matrix is obs-by-predictors, the data obs-by-voxels, both over
exact rationals; `np.linalg.inv` of the square matrix XᵀX is the classical
adjugate inverse, computed only on the nonsingular domain (numpy raises
LinAlgError on a singular input, modelled by a determinant guard); on that
same domain the Moore-Penrose pseudo-inverse `np.linalg.pinv(X)` equals
`(XᵀX)⁻¹Xᵀ`.  The square root used by `np.std` and by `** .5`, and the
Student-t CDF used for the p-values, are abstract parameters. -/

/-- Classical inverse of a square rational matrix via the adjugate,
`np.linalg.inv` on its nonsingular domain. -/
def qInv {k : ℕ} (A : Matrix (Fin k) (Fin k) ℚ) : Matrix (Fin k) (Fin k) ℚ :=
  A.det⁻¹ • A.adjugate

/-- Mean of column `j` of a matrix. -/
def colMean {n v : ℕ} (M : Matrix (Fin n) (Fin v) ℚ) (j : Fin v) : ℚ :=
  (∑ i, M i j) / (n : ℚ)

/-- numpy `np.std(M, axis=0)` at column `j`: the population (not
sample-corrected) standard deviation, with the square root abstract. -/
def colStd (sqrt : ℚ → ℚ) {n v : ℕ} (M : Matrix (Fin n) (Fin v) ℚ) (j : Fin v) : ℚ :=
  sqrt ((∑ i, (M i j - colMean M j) ^ 2) / (n : ℚ))

/-- The outputs of `Brain_Data.regress` (line 250): beta, t and p are
predictors-by-voxels, `dfvec` is the length-`v` constant vector of line 237,
`sigma` is per-voxel, the residual is obs-by-voxels. -/
structure RegressOut (n k v : ℕ) where
  beta : Matrix (Fin k) (Fin v) ℚ
  tmat : Matrix (Fin k) (Fin v) ℚ
  p : Matrix (Fin k) (Fin v) ℚ
  dfvec : Fin v → ℤ
  sigma : Fin v → ℚ
  residual : Matrix (Fin n) (Fin v) ℚ

/-- Brain_Data.regress (lines 209-250).  An empty design (a pandas DataFrame
is empty iff either axis has length zero) raises ValueError (line 224); a
singular XᵀX makes `np.linalg.inv` at line 232 raise LinAlgError before any
output is returned, modelled by the determinant guard.  Otherwise:
`b = pinv(X)·data`, `res = data − X·b`, `sigma = np.std(res, axis=0)`,
`stderr[i,j] = sqrt(diag((XᵀX)⁻¹)[i]) · sigma[j]`, `t = b / stderr`
entrywise, `df = [n − k] * v`, and `p = 2·(1 − cdf(|t|, df))` entrywise. -/
def regress (sqrt : ℚ → ℚ) (cdf : ℚ → ℤ → ℚ) {n k v : ℕ}
    (X : Matrix (Fin n) (Fin k) ℚ) (data : Matrix (Fin n) (Fin v) ℚ) :
    Except PyErr (RegressOut n k v) :=
  if n = 0 ∨ k = 0 then .error .valueError
  else if (X.transpose * X).det = 0 then .error .valueError
  else
    let b := qInv (X.transpose * X) * X.transpose * data
    let res := data - X * b
    let sigma := fun j => colStd sqrt res j
    let stderr := fun (i : Fin k) (j : Fin v) => sqrt (qInv (X.transpose * X) i i) * sigma j
    let t := fun (i : Fin k) (j : Fin v) => b i j / stderr i j
    let df : ℤ := (n : ℤ) - (k : ℤ)
    .ok { beta := b
          tmat := Matrix.of t
          p := Matrix.of fun i j => 2 * (1 - cdf |t i j| df)
          dfvec := fun _ => df
          sigma := sigma
          residual := res }

/-! ### Concrete instances used to evaluate the model on small inputs -/

/-- Abstract square root instantiated as the identity for evaluation. -/
def sqrtId : ℚ → ℚ := id

/-- Abstract Student-t CDF instantiated as the constant zero for evaluation. -/
def cdfZero : ℚ → ℤ → ℚ := fun _ _ => 0

/-- A two-observation, one-voxel data matrix. -/
def dataEx : List (List ℚ) := [[1], [2]]

/-- A stateful estimator whose fit accumulates every row it has ever been
fit on (warm-start behaviour, permitted by the fit/predict contract) and
whose predictions expose whether the row `[9]` was ever in a fit call. -/
def accumEst : Estimator (List (List ℚ)) where
  init := []
  fit := fun s M _ => s ++ M
  pred := fun s M => M.map (fun _ => if [(9 : ℚ)] ∈ s then 1 else 0)

/-- Two data matrices agreeing on row 0 (the only train row of the single
fold below) and differing on row 1 (that fold's test row). -/
def cexX : List (List ℚ) := [[0], [0]]

/-- Variant of `cexX` perturbed only at the test row. -/
def cexX2 : List (List ℚ) := [[0], [9]]

/-- Labels for the two-observation counterexample data. -/
def cexY : List ℚ := [0, 0]

/-- A single cross-validation fold: train on row 0, test on row 1. -/
def cexFolds : List (List ℕ × List ℕ) := [([0], [1])]

/-- An estimator whose fit ignores its previous state (its result is a
function of the passed training data alone, as for scikit-learn
estimators). -/
def oblEst : Estimator (List (List ℚ)) where
  init := []
  fit := fun _ M _ => M
  pred := fun s M => M.map (fun r => r.sum + (s.map List.sum).sum)

/-- Three-observation data for the no-leakage witness. -/
def wX : List (List ℚ) := [[1], [2], [3]]

/-- Variant of `wX` perturbed only at row 2, which is outside fold 0's train
and test indices. -/
def wX2 : List (List ℚ) := [[1], [2], [7]]

/-- Labels for the three-observation witness data. -/
def wY : List ℚ := [0, 0, 0]

/-- Two folds; fold 0 trains on row 0 and tests on row 1. -/
def wFolds : List (List ℕ × List ℕ) := [([0], [1]), ([1, 2], [0])]

/-- A trivial margin-capable classifier adapter with probability estimation
disabled. -/
def trivClassif : ClassifEstimator Unit where
  init := ()
  fit := fun _ _ _ => ()
  pred := fun _ M => M.map (fun _ => 0)
  decisionFun := fun _ M => M.map (fun _ => 0)
  predictProba := fun _ M => M.map (fun _ => 0)
  probability := false

/-- A 1-D Brain_Data payload with three voxels. -/
def bd1d : BrainDataM := ⟨.one [0, 0, 0], [], []⟩

/-- A 2-D Brain_Data payload, two observations by three voxels. -/
def bd2d : BrainDataM := ⟨.two [[0, 0, 0], [0, 0, 0]], [], []⟩

/-- An empty Brain_Data payload (as produced by `Brain_Data.empty`). -/
def bdEmpty : BrainDataM := ⟨.one [], [], []⟩

/-- Data whose row 0 has zero variance. -/
def simData : List (List ℚ) := [[1, 1], [1, 2]]

/-- A two-voxel reference pattern. -/
def simRef : List ℚ := [1, 2]

/-- A one-observation, one-predictor design matrix with entry 2. -/
def X1 : Matrix (Fin 1) (Fin 1) ℚ := fun _ _ => 2

/-- A one-predictor, one-voxel true coefficient matrix with entry 3. -/
def beta1 : Matrix (Fin 1) (Fin 1) ℚ := fun _ _ => 3

/-- A one-observation, one-voxel data matrix with entry 5. -/
def data1 : Matrix (Fin 1) (Fin 1) ℚ := fun _ _ => 5

/-! ### Helper lemmas -/

/-- Entry `i` of a map over a zip, when `i` is in range on both sides. -/
theorem getD_zip_map (f : ℚ × ℚ → Option ℚ) :
    ∀ (xs ys : List ℚ) (i : ℕ), i < xs.length → i < ys.length →
      ((xs.zip ys).map f).getD i none = f (xs.getD i 0, ys.getD i 0) := by
  intro xs
  induction xs with
  | nil => intro ys i h1 _; exact absurd h1 (by simp)
  | cons x xs ih =>
      intro ys i h1 h2
      cases ys with
      | nil => exact absurd h2 (by simp)
      | cons y ys =>
          cases i with
          | zero => simp
          | succ n =>
              simp only [List.zip_cons_cons, List.map_cons, List.getD_cons_succ]
              exact ih ys n (by simpa using h1) (by simpa using h2)

/-- The t vector of `ttest1samp` has one entry per voxel. -/
theorem ttest1samp_fst_len (sq : ℚ → ℚ) (cdf : ℚ → ℤ → ℚ) (data : List (List ℚ)) :
    (ttest1samp sq cdf data).1.length = voxelCount data := by
  simp [ttest1samp]

/-- The p vector of `ttest1samp` has one entry per voxel. -/
theorem ttest1samp_snd_len (sq : ℚ → ℚ) (cdf : ℚ → ℤ → ℚ) (data : List (List ℚ)) :
    (ttest1samp sq cdf data).2.length = voxelCount data := by
  simp [ttest1samp]

/-! ### Claim theorems -/

/-- C4: with `{'unc': c}`, `ttest` succeeds; exactly the voxels whose p-value
strictly exceeds the cutoff have their t-value replaced by the missing
marker, every other voxel keeps the t-value of the unthresholded test, the
p map is exactly the unthresholded p map, and the per-voxel shape is
preserved. -/
theorem ttest_uncorrected_threshold (sq : ℚ → ℚ) (cdf : ℚ → ℤ → ℚ)
    (data : List (List ℚ)) (es : List (String × ℚ)) (c : ℚ) (i : ℕ)
    (hu : es.lookup "unc" = some c) (hi : i < voxelCount data) :
    ∃ tv pv, ttest1samp sq cdf data = (tv, pv) ∧
      ttest sq cdf data none = .ok ⟨tv.map some, pv⟩ ∧
      ttest sq cdf data (some (.dict es)) = .ok ⟨maskAbove c tv pv, pv⟩ ∧
      tv.length = voxelCount data ∧
      (maskAbove c tv pv).length = voxelCount data ∧
      (maskAbove c tv pv).getD i none =
        (if pv.getD i 0 > c then none else some (tv.getD i 0)) := by
  refine ⟨(ttest1samp sq cdf data).1, (ttest1samp sq cdf data).2, rfl, rfl, ?_, ?_, ?_, ?_⟩
  · simp [ttest, hu]
  · exact ttest1samp_fst_len sq cdf data
  · simp [maskAbove, List.length_zip, ttest1samp_fst_len, ttest1samp_snd_len]
  · exact getD_zip_map _ _ _ i (by rw [ttest1samp_fst_len]; exact hi)
      (by rw [ttest1samp_snd_len]; exact hi)

/-- C4 witness at a two-observation, one-voxel input with cutoff 1. -/
theorem ttest_uncorrected_threshold_witness :
    ∃ tv pv, ttest1samp sqrtId cdfZero dataEx = (tv, pv) ∧
      ttest sqrtId cdfZero dataEx none = .ok ⟨tv.map some, pv⟩ ∧
      ttest sqrtId cdfZero dataEx (some (.dict [("unc", 1)])) =
        .ok ⟨maskAbove 1 tv pv, pv⟩ ∧
      tv.length = voxelCount dataEx ∧
      (maskAbove 1 tv pv).length = voxelCount dataEx ∧
      (maskAbove 1 tv pv).getD 0 none =
        (if pv.getD 0 0 > 1 then none else some (tv.getD 0 0)) :=
  ttest_uncorrected_threshold sqrtId cdfZero dataEx [("unc", 1)] 1 0
    (by decide) (by decide)

/-- C5 counterexample: at a concrete input, `ttest` with `{'fdr': 1/20}`
does not fail at all — it returns the same fully unthresholded result as the
call with no threshold, so the claimed NotImplementedError-class failure
does not happen. -/
theorem ttest_fdr_silent_counterexample :
    ttest sqrtId cdfZero dataEx (some (.dict [("fdr", 1)])) =
      ttest sqrtId cdfZero dataEx none ∧
    (ttest sqrtId cdfZero dataEx none).isOk = true := by
  constructor <;> rfl

/-- C5 amended: the `fdr` branch of `ttest` is a silent no-op — with a dict
that has an `fdr` key and no `unc` key, the call succeeds and returns
exactly the unthresholded result (no error is raised and no correction is
applied). -/
theorem ttest_fdr_noop (sq : ℚ → ℚ) (cdf : ℚ → ℤ → ℚ) (data : List (List ℚ))
    (es : List (String × ℚ)) (q : ℚ)
    (h1 : es.lookup "unc" = none) (h2 : es.lookup "fdr" = some q) :
    ttest sq cdf data (some (.dict es)) = ttest sq cdf data none := by
  simp [ttest, h1, h2]

/-- C5 amended witness at a concrete fdr-only threshold dict. -/
theorem ttest_fdr_noop_witness :
    ([("fdr", (1 : ℚ))]).lookup "unc" = none ∧
    ([("fdr", (1 : ℚ))]).lookup "fdr" = some 1 ∧
    ttest sqrtId cdfZero dataEx (some (.dict [("fdr", 1)])) =
      ttest sqrtId cdfZero dataEx none :=
  ⟨by decide, by decide,
    ttest_fdr_noop sqrtId cdfZero dataEx [("fdr", 1)] 1 (by decide) (by decide)⟩

/-- C9 counterexample: a dict whose only key is unrecognized does not raise
InvalidConfigurationError — at a concrete input it returns the unthresholded
result, the same value as the call with no threshold. -/
theorem ttest_unknown_key_counterexample :
    ttest sqrtId cdfZero dataEx (some (.dict [("bogus", 1)])) =
      ttest sqrtId cdfZero dataEx none ∧
    (ttest sqrtId cdfZero dataEx none).isOk = true := by
  constructor <;> rfl

/-- C9 amended: a non-dictionary threshold value fails with ValueError (the
InvalidConfigurationError of the spec), but a dictionary with no `unc` key —
in particular one whose keys are all unrecognized — is silently accepted and
the unthresholded result returned. -/
theorem ttest_threshold_config (sq : ℚ → ℚ) (cdf : ℚ → ℤ → ℚ)
    (data : List (List ℚ)) (es : List (String × ℚ))
    (h : es.lookup "unc" = none) :
    ttest sq cdf data (some .notDict) = .error .valueError ∧
    ttest sq cdf data (some (.dict es)) = ttest sq cdf data none := by
  constructor
  · rfl
  · simp [ttest, h]

/-- C9 amended witness at a concrete unknown-key dict. -/
theorem ttest_threshold_config_witness :
    ([("bogus", (1 : ℚ))]).lookup "unc" = none ∧
    (ttest sqrtId cdfZero dataEx (some .notDict) = .error .valueError ∧
     ttest sqrtId cdfZero dataEx (some (.dict [("bogus", 1)])) =
       ttest sqrtId cdfZero dataEx none) :=
  ⟨by decide, ttest_threshold_config sqrtId cdfZero dataEx [("bogus", 1)] (by decide)⟩

/-- C6: appending a 2-D instance to a non-empty 1-D instance with the SAME
voxel count (both have 3 voxels) raises IndexError instead of succeeding:
the `&` operator-precedence slip makes the 1-D-self/2-D-other branch of the
shape check unreachable, so control reaches `self.shape()[1]` on a 1-D
shape. -/
theorem append_1d_2d_indexError :
    bd1d.data.shape.getD 0 0 = bd2d.data.shape.getD 1 0 ∧
    append bd1d bd2d = .error .indexError := by
  constructor <;> rfl

/-- C10: appending to an instance whose data payload is empty performs no
shape compatibility check and succeeds, the result carrying exactly the
appended instance's data. -/
theorem append_empty_self_ok (a b : BrainDataM) (h : isempty a = true) :
    append a b = .ok { a with data := b.data } := by
  simp [append, h]
  rfl

/-- C10 witness: an empty payload with a non-empty 1-D payload appended. -/
theorem append_empty_self_ok_witness :
    isempty bdEmpty = true ∧ isempty bd1d = false ∧
    append bdEmpty bd1d = .ok { bdEmpty with data := bd1d.data } :=
  ⟨by decide, by decide, append_empty_self_ok bdEmpty bd1d (by decide)⟩

/-- C7: for every input with at least one row, `similarity` with method
`correlation` raises NameError instead of returning the claimed vector of
per-row Pearson correlations: the name `pearson` used at line 382 is never
imported or defined in the module, so the first loop iteration fails for
every such input — including ones with zero-variance rows, which therefore
never get the claimed missing value either. -/
theorem similarity_correlation_nameError (data : List (List ℚ))
    (image : List ℚ) (h : data ≠ []) :
    similarity data image "correlation" = .error .nameError := by
  unfold similarity
  rw [if_neg (by decide), if_pos rfl,
    if_neg (fun hz => h (List.length_eq_zero.mp hz))]

/-- C7 witness: a two-row matrix (whose row 0 even has zero variance, the
case the claim singles out) still raises NameError. -/
theorem similarity_correlation_nameError_witness :
    simData ≠ [] ∧
    similarity simData simRef "correlation" = .error .nameError :=
  ⟨by decide, similarity_correlation_nameError simData simRef (by decide)⟩

/-- C1 counterexample: the cross-validation loop reuses the very estimator
object already fit on the full sample, so for a stateful (warm-start)
estimator a fold's training fit is NOT a function of that fold's train rows
only: perturbing the data solely at the fold's test index (train rows
unchanged, first conjunct) changes the state the fold's fit produces. -/
theorem cvTrace_shared_estimator_counterexample :
    rowsAt cexX (cexFolds.getD 0 ([], [])).1 =
      rowsAt cexX2 (cexFolds.getD 0 ([], [])).1 ∧
    (cvTrace accumEst cexX cexY cexFolds
        (accumEst.fit accumEst.init cexX cexY)).map Prod.fst ≠
      (cvTrace accumEst cexX2 cexY cexFolds
        (accumEst.fit accumEst.init cexX2 cexY)).map Prod.fst := by
  decide

/-- C1 amended: provided the estimator's fit result is a function of the
passed training data alone (state-oblivious fit, as for scikit-learn
estimators, whose fit discards previous state), fold `k`'s recorded training
fit and held-out predictions are unchanged under any perturbation of the
data that preserves the rows at fold `k`'s train indices and test indices —
in particular they never depend on other folds' rows. -/
theorem cvTrace_no_leakage {S : Type} (E : Estimator S)
    (hfit : ∀ s s2 M y, E.fit s M y = E.fit s2 M y)
    (X X2 : List (List ℚ)) (Y : List ℚ) :
    ∀ (folds : List (List ℕ × List ℕ)) (k : ℕ) (s0 s02 : S),
      k < folds.length →
      rowsAt X (folds.getD k ([], [])).1 = rowsAt X2 (folds.getD k ([], [])).1 →
      rowsAt X (folds.getD k ([], [])).2 = rowsAt X2 (folds.getD k ([], [])).2 →
      (cvTrace E X Y folds s0).get? k = (cvTrace E X2 Y folds s02).get? k := by
  intro folds
  induction folds with
  | nil => intro k s0 s02 hk _ _; exact absurd hk (by simp)
  | cons f fs ih =>
      intro k s0 s02 hk htr hte
      cases k with
      | zero =>
          simp only [List.getD_cons_zero] at htr hte
          have hf : E.fit s0 (rowsAt X f.1) (valsAt Y f.1)
              = E.fit s02 (rowsAt X2 f.1) (valsAt Y f.1) := by
            rw [htr]; exact hfit _ _ _ _
          simp only [cvTrace, List.get?_cons_zero]
          rw [hf, hte]
      | succ m =>
          simp only [List.getD_cons_succ] at htr hte
          simp only [cvTrace, List.get?_cons_succ]
          exact ih m _ _ (by simpa using hk) htr hte

/-- C1 amended witness: a fit-resetting estimator, fold 0 training on row 0
and testing on row 1, and a perturbation at row 2 only. -/
theorem cvTrace_no_leakage_witness :
    0 < wFolds.length ∧
    rowsAt wX (wFolds.getD 0 ([], [])).1 = rowsAt wX2 (wFolds.getD 0 ([], [])).1 ∧
    rowsAt wX (wFolds.getD 0 ([], [])).2 = rowsAt wX2 (wFolds.getD 0 ([], [])).2 ∧
    (cvTrace oblEst wX wY wFolds (oblEst.fit oblEst.init wX wY)).get? 0 =
      (cvTrace oblEst wX2 wY wFolds (oblEst.fit oblEst.init wX2 wY)).get? 0 :=
  ⟨by decide, by decide, by decide,
    cvTrace_no_leakage oblEst (fun _ _ _ _ => rfl) wX wX2 wY wFolds 0
      (oblEst.fit oblEst.init wX wY) (oblEst.fit oblEst.init wX2 wY)
      (by decide) (by decide) (by decide)⟩

/-- C8: for every margin-based (decision-boundary) classification algorithm
and any non-empty cross-validation scheme, the cross-validation section of
`predict` raises KeyError on the first fold — the decision-distance output
vector was assigned to a local variable instead of the output record, so
`output['dist_from_hyperplane_xval']` does not exist when the fold writes
to it — and therefore never returns the claimed result. -/
theorem cvClassif_margin_keyError {S : Type} (E : ClassifEstimator S)
    (alg : String) (X : List (List ℚ)) (Y : List ℚ) (f : List ℕ × List ℕ)
    (fs : List (List ℕ × List ℕ)) (hm : alg ∈ marginAlgs) :
    cvClassif E alg X Y (f :: fs) = .error .keyError := by
  have hinit : ∀ (nY : ℕ) (s1 : S) (yf : List ℚ),
      (cvClassifInit E alg nY s1 yf).distXval = none := by
    intro nY s1 yf
    by_cases hp : alg = "svm" ∧ E.probability <;> simp [cvClassifInit, hm, hp]
  have hstep : ∀ st : CvClassifState S, st.distXval = none →
      cvClassifStep E alg X Y st f = .error .keyError := by
    intro st hd
    simp only [cvClassifStep, hm, writeOpt, hd, not_true_eq_false, if_false]
    rfl
  simp only [cvClassif, List.foldlM, hstep _ (hinit _ _ _)]
  rfl

/-- C8 witness: a margin-based algorithm (svm) with one fold errors out. -/
theorem cvClassif_margin_keyError_witness :
    "svm" ∈ marginAlgs ∧
    cvClassif trivClassif "svm" [[0], [0]] [0, 0] [([0], [1])] = .error .keyError :=
  ⟨by decide,
    cvClassif_margin_keyError trivClassif "svm" [[0], [0]] [0, 0] ([0], [1]) []
      (by decide)⟩

/-- Classical adjugate inverse is a left inverse on the nonsingular domain. -/
theorem qInv_mul_self {k : ℕ} (A : Matrix (Fin k) (Fin k) ℚ) (h : A.det ≠ 0) :
    qInv A * A = 1 := by
  rw [qInv, Matrix.smul_mul, Matrix.adjugate_mul, smul_smul,
    inv_mul_cancel₀ h, one_smul]

/-- C2: on noiseless data `X · beta` with a full-column-rank design —
characterized by the invertibility of XᵀX, i.e. nonzero determinant —
`regress` succeeds, recovers exactly `beta`, and its residual matrix is
identically zero. -/
theorem regress_noiseless_recovery (sq : ℚ → ℚ) (cdf : ℚ → ℤ → ℚ) {n k v : ℕ}
    (X : Matrix (Fin n) (Fin k) ℚ) (beta : Matrix (Fin k) (Fin v) ℚ)
    (hnk : ¬(n = 0 ∨ k = 0)) (hdet : (X.transpose * X).det ≠ 0) :
    ∃ out, regress sq cdf X (X * beta) = .ok out ∧
      out.beta = beta ∧ out.residual = 0 := by
  have hb : qInv (X.transpose * X) * X.transpose * (X * beta) = beta := by
    rw [Matrix.mul_assoc, ← Matrix.mul_assoc X.transpose X beta,
      ← Matrix.mul_assoc, qInv_mul_self _ hdet, Matrix.one_mul]
  unfold regress
  rw [if_neg hnk, if_neg hdet]
  refine ⟨_, rfl, hb, ?_⟩
  show X * beta - X * (qInv (X.transpose * X) * X.transpose * (X * beta)) = 0
  rw [hb, sub_self]

/-- C2 witness: a 1-observation, 1-predictor, 1-voxel noiseless instance. -/
theorem regress_noiseless_recovery_witness :
    ¬((1 : ℕ) = 0 ∨ (1 : ℕ) = 0) ∧ (X1.transpose * X1).det ≠ 0 ∧
    (∃ out, regress sqrtId cdfZero X1 (X1 * beta1) = .ok out ∧
      out.beta = beta1 ∧ out.residual = 0) :=
  ⟨by decide,
    by norm_num [Matrix.det_fin_one, Matrix.mul_apply, Matrix.transpose_apply, X1],
    regress_noiseless_recovery sqrtId cdfZero X1 beta1 (by decide)
      (by norm_num [Matrix.det_fin_one, Matrix.mul_apply, Matrix.transpose_apply, X1])⟩

/-- C3: whenever `regress` succeeds, every (predictor, voxel) entry of the
returned p map equals `2 * (1 - cdf |t| df)` computed from the returned t
map with `df = n - k` (observation count minus predictor count), and the
returned df output is that constant broadcast as a vector with one entry per
voxel. -/
theorem regress_p_t_df_consistency (sq : ℚ → ℚ) (cdf : ℚ → ℤ → ℚ) {n k v : ℕ}
    (X : Matrix (Fin n) (Fin k) ℚ) (data : Matrix (Fin n) (Fin v) ℚ)
    (hnk : ¬(n = 0 ∨ k = 0)) (hdet : (X.transpose * X).det ≠ 0) :
    ∃ out, regress sq cdf X data = .ok out ∧
      out.p = Matrix.of (fun i j => 2 * (1 - cdf |out.tmat i j| ((n : ℤ) - k))) ∧
      out.dfvec = fun _ => (n : ℤ) - k := by
  unfold regress
  rw [if_neg hnk, if_neg hdet]
  exact ⟨_, rfl, rfl, rfl⟩

/-- C3 witness: a 1-observation, 1-predictor, 1-voxel instance. -/
theorem regress_p_t_df_consistency_witness :
    ¬((1 : ℕ) = 0 ∨ (1 : ℕ) = 0) ∧ (X1.transpose * X1).det ≠ 0 ∧
    (∃ out, regress sqrtId cdfZero X1 data1 = .ok out ∧
      out.p = Matrix.of (fun i j => 2 * (1 - cdfZero |out.tmat i j| ((1 : ℤ) - 1))) ∧
      out.dfvec = fun _ => (1 : ℤ) - 1) :=
  ⟨by decide,
    by norm_num [Matrix.det_fin_one, Matrix.mul_apply, Matrix.transpose_apply, X1],
    regress_p_t_df_consistency sqrtId cdfZero X1 data1 (by decide)
      (by norm_num [Matrix.det_fin_one, Matrix.mul_apply, Matrix.transpose_apply, X1])⟩

end Nltools
